import Mathlib

/-!
# send_altitude_cocoos: sensor tasks on a shared I2C bus

A shallow embedding of `sensor.cpp`, `sensor.h` and `main.c`.

* Machine integers are natural numbers reduced with `u8` / `u16` where the C
  type narrows a value.
* A C buffer is a function from offsets to cells: offsets past the declared
  array length stand for the memory that follows the array, so an access
  outside the array is visible in the model.
* A task body is embedded as one pass through its `for (;;)` loop.  It returns
  the updated task data together with the list of calls it made, in program
  order.  `debug` output is not part of that list.
* Driver callbacks reached through function pointers (`poll`, `data`,
  `init`, `next_channel`, ...) are fields of the sensor record acting on a
  driver state `σ`.
-/

namespace SendAltitude

/-- Value kept by a `uint8_t`. -/
def u8 (n : Nat) : Nat := n % 256

/-- Value kept by a `uint16_t`. -/
def u16 (n : Nat) : Nat := n % 65536

/-- Calls made by one pass of a sensor task, with the arguments that matter.
`event_wait` is the cocoOS wait on a single event; the task bodies in this
repository only contain it inside a comment block. -/
inductive Call (M : Type) where
  | task_get_data
  | sem_wait
  | poll
  | receive (size : Nat)
  | msg_post (task : Nat) (msg : M)
  | sem_signal
  | task_wait (ticks : Nat)
  | event_wait (event : Nat)

/-- Operations on the bus semaphore. -/
inductive SemOp where
  | acquire
  | release
  deriving DecidableEq, Repr

/-- The semaphore operation performed by a call, if any. -/
def Call.semOp {M : Type} : Call M → Option SemOp
  | .sem_wait => some .acquire
  | .sem_signal => some .release
  | _ => none

/-- The acquire/release trace of a list of calls. -/
def semTrace {M : Type} (t : List (Call M)) : List SemOp :=
  t.filterMap Call.semOp

/-- The envelope carried by a call, if it is a `msg_post`. -/
def Call.posted {M : Type} : Call M → Option M
  | .msg_post _ m => some m
  | _ => none

/-- The envelopes posted by a list of calls, oldest first. -/
def posted {M : Type} (t : List (Call M)) : List M :=
  t.filterMap Call.posted

/-- Whether a call is a wait on a timeout. -/
def Call.isTaskWait {M : Type} : Call M → Bool
  | .task_wait _ => true
  | _ => false

/-- Whether a call is a wait on an event. -/
def Call.isEventWait {M : Type} : Call M → Bool
  | .event_wait _ => true
  | _ => false

/-- Whether a call is a `msg_post`. -/
def Call.isMsgPost {M : Type} : Call M → Bool
  | .msg_post _ _ => true
  | _ => false

/-- Whether a call is a `sem_signal`. -/
def Call.isSemSignal {M : Type} : Call M → Bool
  | .sem_signal => true
  | _ => false

/-! ## C strings -/

/-- The characters of the C string stored in `s`: the bytes before the first
NUL (the end of the list counts as the terminator). -/
def cstr (s : List Nat) : List Nat :=
  s.takeWhile (fun c => c != 0)

/-- The libc `memset(dst, 0, n)` on a byte buffer. -/
def memset_zero (dst : List Nat) (n : Nat) : List Nat :=
  List.replicate n 0 ++ dst.drop n

/-- The libc `strncpy(dst, src, n)`: copies the characters of `src` up to `n`
bytes and pads with NUL up to `n` bytes; the bytes of `dst` from `n` on are
kept. -/
def strncpy (dst src : List Nat) (n : Nat) : List Nat :=
  (cstr src).take n ++ List.replicate (n - (cstr src).length) 0 ++ dst.drop n

/-! ## sensor.cpp -/

namespace SensorCpp

/-- The `info` part of a sensor as `sensor.cpp` uses it. -/
structure SensorInfo (σ α : Type) where
  name : List Nat
  id : Nat
  event : Option Nat
  poll_interval : Nat
  poll_sensor_func : σ → Nat × σ
  receive_sensor_data_func : σ → (Nat → α) → Nat → Nat × (Nat → α) × σ

/-- The `control` part of a sensor as `sensor.cpp` uses it. -/
structure SensorControl (σ : Type) where
  init_sensor_func : σ → σ
  next_channel_func : σ → σ
  prev_channel_func : σ → σ

/-- A sensor: its two interfaces and the state of its driver. -/
structure Sensor (σ α : Type) where
  info : SensorInfo σ α
  control : SensorControl σ
  hw : σ

/-- The task data of one `sensor_task` instance. -/
structure SensorContext (σ α : Type) where
  sensor : Sensor σ α
  data : Nat → α
  count : Nat
  display_task_id : Nat

/-- The message sent to the display task.  A `data` slot is `none` until it
is assigned. -/
structure DisplayMsg (α : Type) where
  signal : Nat
  name : List Nat
  count : Nat
  data : Nat → Option α

/-- The copy loop of `sensor_task`:
`for (int i = 0; i < msg.count && i < sensorDataSize; i++) msg.data[i] = context->data[i];`
entered at index `i` with the message slots `dst`. -/
def copy_sensor_data {α : Type} (src : Nat → α) (count sensorDataSize : Nat)
    (i : Nat) (dst : Nat → Option α) : Nat → Option α :=
  if i < count ∧ i < sensorDataSize then
    copy_sensor_data src count sensorDataSize (i + 1) (Function.update dst i (some (src i)))
  else
    dst
termination_by sensorDataSize - i
decreasing_by omega

/-- The message built by `sensor_task` from the context after the read. -/
def build_msg {σ α : Type} (sensorDataSize sensorNameSize : Nat)
    (context : SensorContext σ α) : DisplayMsg α :=
  { signal := context.sensor.info.id
    name := strncpy (memset_zero [] (sensorNameSize + 1)) context.sensor.info.name
      sensorNameSize
    count := context.count
    data := copy_sensor_data context.data context.count sensorDataSize 0 (fun _ => none) }

/-- The context after `receive_sensor_data_func(context->data, sensorDataSize)`
and `context->count = sensorDataCount`, entered with the driver state `hw`
left by the poll. -/
def read_sensor {σ α : Type} (sensorDataSize : Nat) (context : SensorContext σ α)
    (hw : σ) : SensorContext σ α :=
  let r := context.sensor.info.receive_sensor_data_func hw context.data (u8 sensorDataSize)
  let sensorDataCount := u8 r.1
  { context with
    sensor := { context.sensor with hw := r.2.2 }
    data := r.2.1
    count := sensorDataCount }

/-- One pass through the loop of `sensor_task`, for the task whose data is
`context`. -/
def sensor_task_cycle {σ α : Type} (sensorDataSize sensorNameSize : Nat)
    (context : SensorContext σ α) :
    SensorContext σ α × List (Call (DisplayMsg α)) :=
  let p := context.sensor.info.poll_sensor_func context.sensor.hw
  if u8 p.1 > 0 then
    let context1 := read_sensor sensorDataSize context p.2
    let msg := build_msg sensorDataSize sensorNameSize context1
    (context1,
      [.task_get_data, .sem_wait, .task_get_data, .poll, .receive (u8 sensorDataSize),
       .msg_post context1.display_task_id msg,
       .sem_signal, .task_wait context1.sensor.info.poll_interval])
  else
    ({ context with sensor := { context.sensor with hw := p.2 } },
      [.task_get_data, .sem_wait, .task_get_data, .poll,
       .sem_signal, .task_wait context.sensor.info.poll_interval])

/-- Successive passes of one `sensor_task` instance.  Each element of `env` is
what the rest of the system does to the driver state while the task is
suspended after a pass; the number of passes is the length of `env`. -/
def sensor_task_run {σ α : Type} (sensorDataSize sensorNameSize : Nat) :
    SensorContext σ α → List (σ → σ) → SensorContext σ α × List (Call (DisplayMsg α))
  | context, [] => (context, [])
  | context, e :: env =>
    let r := sensor_task_cycle sensorDataSize sensorNameSize context
    let context1 := { r.1 with sensor := { r.1.sensor with hw := e r.1.sensor.hw } }
    let rest := sensor_task_run sensorDataSize sensorNameSize context1 env
    (rest.1, r.2 ++ rest.2)

/-- The function `setup_sensor_context`.  `nextSensorID` is the global counter,
`event` the handle returned by `event_create()`.  Returns the counter and the
context after the call. -/
def setup_sensor_context {σ α : Type} (nextSensorID : Nat) (event : Nat)
    (context : SensorContext σ α) (sensor : Sensor σ α)
    (pollInterval displayTaskID : Nat) : Nat × SensorContext σ α :=
  let sensorID := nextSensorID
  let nextSensorID1 := u8 (nextSensorID + 1)
  let info1 : SensorInfo σ α :=
    { sensor.info with id := sensorID, event := some event, poll_interval := u16 pollInterval }
  let sensor1 : Sensor σ α :=
    { sensor with info := info1, hw := sensor.control.init_sensor_func sensor.hw }
  (nextSensorID1, { context with sensor := sensor1, display_task_id := u8 displayTaskID })

/-- The arguments of one call of `setup_sensor_context`, with the handle that
`event_create()` returns during the call. -/
structure SetupCall (σ α : Type) where
  context : SensorContext σ α
  sensor : Sensor σ α
  pollInterval : Nat
  displayTaskID : Nat
  event : Nat

/-- A sequence of calls of `setup_sensor_context`, threading the global
`nextSensorID`.  Returns the final counter and the contexts in call order. -/
def setup_all {σ α : Type} :
    Nat → List (SetupCall σ α) → Nat × List (SensorContext σ α)
  | nextSensorID, [] => (nextSensorID, [])
  | nextSensorID, c :: cs =>
    let r := setup_sensor_context nextSensorID c.event c.context c.sensor
      c.pollInterval c.displayTaskID
    let rest := setup_all r.1 cs
    (rest.1, r.2 :: rest.2)

/-- The ids stored by a sequence of registrations, in call order. -/
def assigned_ids {σ α : Type} (nextSensorID : Nat) (cs : List (SetupCall σ α)) : List Nat :=
  (setup_all nextSensorID cs).2.map (fun c => c.sensor.info.id)

end SensorCpp

/-! ## sensor.h and main.c -/

namespace MainC

/-- The struct `SensorInfo` of `sensor.h`.  `event` is `none` for a null
pointer. -/
structure SensorInfo (σ : Type) where
  name : List Nat
  event : Option Nat
  id : Nat
  period_ms : Nat
  poll : σ → Nat × σ
  data : σ → (Nat → Nat) → Nat → Nat × (Nat → Nat) × σ

/-- The struct `SensorControl` of `sensor.h`. -/
structure SensorControl (σ : Type) where
  init : Nat → Option Nat → Nat → σ → σ
  next_channel : σ → σ
  prev_channel : σ → σ

/-- The struct `Sensor` of `sensor.h`, with the state of its driver. -/
structure Sensor (σ : Type) where
  info : SensorInfo σ
  control : SensorControl σ
  hw : σ

/-- The struct `TaskData_t` of `main.c`.  `data` gives the bytes at
`taskData->data + i`; the array is the offsets below `dataSize`. -/
structure TaskData_t (σ : Type) where
  sensor : Sensor σ
  data : Nat → Nat

/-- The length of `TaskData_t.data`. -/
def dataSize : Nat := 64

/-- The message of `main.c`: the signal and a pointer to the task's buffer. -/
structure DisplayMsg_t where
  signal : Nat
  data : Nat
  deriving DecidableEq, Repr

/-- The offset written by `taskData->data[nread] = 0` in `sensorTask`, for
the value returned by the sensor's `data` function. -/
def terminator_index (returned : Nat) : Nat := u8 returned

/-- One pass through the loop of `sensorTask`.  `dataPtr` is the address of
`taskData->data`, `displayTaskId` the global of that name. -/
def sensorTask_cycle {σ : Type} (dataPtr displayTaskId : Nat) (taskData : TaskData_t σ) :
    TaskData_t σ × List (Call DisplayMsg_t) :=
  let p := taskData.sensor.info.poll taskData.sensor.hw
  if u8 p.1 ≠ 0 then
    let r := taskData.sensor.info.data p.2 taskData.data dataSize
    let nread := terminator_index r.1
    let taskData1 : TaskData_t σ :=
      { sensor := { taskData.sensor with hw := r.2.2 }
        data := Function.update r.2.1 nread 0 }
    let msg : DisplayMsg_t := { signal := taskData1.sensor.info.id, data := dataPtr }
    (taskData1,
      [.task_get_data, .sem_wait, .task_get_data, .poll, .receive dataSize,
       .msg_post displayTaskId msg,
       .sem_signal, .task_wait taskData1.sensor.info.period_ms])
  else
    ({ taskData with sensor := { taskData.sensor with hw := p.2 } },
      [.task_get_data, .sem_wait, .task_get_data, .poll,
       .sem_signal, .task_wait taskData.sensor.info.period_ms])

/-- Successive passes of one `sensorTask` instance; see
`SensorCpp.sensor_task_run` for `env`. -/
def sensorTask_run {σ : Type} (dataPtr displayTaskId : Nat) :
    TaskData_t σ → List (σ → σ) → TaskData_t σ × List (Call DisplayMsg_t)
  | taskData, [] => (taskData, [])
  | taskData, e :: env =>
    let r := sensorTask_cycle dataPtr displayTaskId taskData
    let taskData1 := { r.1 with sensor := { r.1.sensor with hw := e r.1.sensor.hw } }
    let rest := sensorTask_run dataPtr displayTaskId taskData1 env
    (rest.1, r.2 ++ rest.2)

/-- The channel operations of a sensor. -/
inductive ChannelCall where
  | next_channel
  | prev_channel
  deriving DecidableEq, Repr

/-- One wake of `controlTask`: the statements after `event_wait_multiple`
returns, where `event` is the value of `event_last_signaled_get()`. -/
def controlTask_wake {σ : Type} (prevChEvt nextChEvt : Nat) (event : Nat)
    (taskData : TaskData_t σ) : TaskData_t σ × List ChannelCall :=
  let sensor := taskData.sensor
  if event = nextChEvt then
    ({ taskData with sensor := { sensor with hw := sensor.control.next_channel sensor.hw } },
      [.next_channel])
  else if event = prevChEvt then
    ({ taskData with sensor := { sensor with hw := sensor.control.prev_channel sensor.hw } },
      [.prev_channel])
  else
    (taskData, [])

end MainC

/-! ## The queue of the display task -/

/-- A `sensor_task` instance together with the queue of the display task.
`msg_post` clones the message into the queue (comment at the call in
`sensor_task`), so the queue holds the messages themselves, data slots
included. -/
structure SensorCpp.World (σ α : Type) where
  context : SensorCpp.SensorContext σ α
  queue : List (SensorCpp.DisplayMsg α)

/-- One pass of `sensor_task`; what it posts is appended to the queue. -/
def SensorCpp.world_pass {σ α : Type} (sensorDataSize sensorNameSize : Nat)
    (w : SensorCpp.World σ α) : SensorCpp.World σ α :=
  let r := SensorCpp.sensor_task_cycle sensorDataSize sensorNameSize w.context
  { context := r.1, queue := w.queue ++ posted r.2 }

/-- Further passes of `sensor_task`, one per element of `env`; what they post
is appended to the queue. -/
def SensorCpp.world_run {σ α : Type} (sensorDataSize sensorNameSize : Nat)
    (w : SensorCpp.World σ α) (env : List (σ → σ)) : SensorCpp.World σ α :=
  let r := SensorCpp.sensor_task_run sensorDataSize sensorNameSize w.context env
  { context := r.1, queue := w.queue ++ posted r.2 }

/-- A store into the scratch buffer of the context: its contents become
`changed`.  The queue is not touched. -/
def SensorCpp.world_set_buffer {σ α : Type} (w : SensorCpp.World σ α)
    (changed : Nat → α) : SensorCpp.World σ α :=
  { w with context := { w.context with data := changed } }

/-- What the display task finds in `msg.data[i]` of the `k`-th queued
message, in the state `w`. -/
def SensorCpp.queued_data {σ α : Type} (w : SensorCpp.World σ α) (k i : Nat) : Option α :=
  w.queue[k]?.bind (fun m => m.data i)

/-- A `sensorTask` instance of `main.c` together with the queue of the
display task.  The queued message holds the signal and the pointer only. -/
structure MainC.World (σ : Type) where
  taskData : MainC.TaskData_t σ
  queue : List MainC.DisplayMsg_t

/-- One pass of `sensorTask`; what it posts is appended to the queue. -/
def MainC.world_pass {σ : Type} (dataPtr displayTaskId : Nat)
    (w : MainC.World σ) : MainC.World σ :=
  let r := MainC.sensorTask_cycle dataPtr displayTaskId w.taskData
  { taskData := r.1, queue := w.queue ++ posted r.2 }

/-- A store into the scratch buffer of the task data: its contents become
`changed`.  The queue is not touched. -/
def MainC.world_set_buffer {σ : Type} (w : MainC.World σ) (changed : Nat → Nat) :
    MainC.World σ :=
  { w with taskData := { w.taskData with data := changed } }

/-- What the display task finds at offset `i` behind `msg.data` of the `k`-th
queued message, in the state `w`: `msg.data` is the address of the sender's
`taskData->data`, so the byte read is the one the buffer holds in `w`. -/
def MainC.queued_data {σ : Type} (w : MainC.World σ) (k i : Nat) : Option Nat :=
  w.queue[k]?.map (fun _ => w.taskData.data i)

/-! ## The bus semaphore and the interleaving of the sensor tasks -/

/-- A cocoOS counting semaphore. -/
structure Sem_t where
  maxCount : Nat
  value : Nat
  deriving DecidableEq, Repr

/-- Modelled from the spec: the kernel call `sem_counting_create` is not part
of the sources; section 6 describes it as "create with max-count and
initial-count". -/
def sem_counting_create (maxCount initValue : Nat) : Sem_t :=
  { maxCount := maxCount, value := initValue }

/-- Modelled from the spec: the kernel call `sem_wait` is not part of the
sources; section 6 describes it as "acquire (may suspend)".  The caller takes
one unit when the value is positive; otherwise it stays suspended (`none`). -/
def sem_wait (s : Sem_t) : Option Sem_t :=
  if 0 < s.value then some { s with value := s.value - 1 } else none

/-- Modelled from the spec: the kernel call `sem_signal` is not part of the
sources; section 6 describes it as "release".  It gives one unit back, up to
the maximum count. -/
def sem_signal (s : Sem_t) : Sem_t :=
  if s.value < s.maxCount then { s with value := s.value + 1 } else s

/-- The semaphore `i2cSemaphore` as `system_setup` creates it. -/
def system_setup : Sem_t :=
  let maxCount := 10
  let initValue := 1
  sem_counting_create maxCount initValue

/-- Where a sensor task stands in its loop: suspended at (or about to run)
`sem_wait`; past `sem_wait` and not yet past `sem_signal`; or suspended in
`task_wait`. -/
inductive Pc where
  | at_sem_wait
  | in_bus_section
  | at_task_wait
  deriving DecidableEq, Repr

/-- The semaphore and the position of each sensor task. -/
structure Sys where
  sem : Sem_t
  pcs : List Pc
  deriving DecidableEq, Repr

/-- The system when `os_start` is reached with `n` sensor tasks created
(`main` creates two). -/
def system_start (n : Nat) : Sys :=
  { sem := system_setup, pcs := List.replicate n Pc.at_sem_wait }

/-- Task `i` is scheduled and runs to its next position.  A task whose
`sem_wait` cannot take the semaphore stays where it is. -/
def task_step (s : Sys) (i : Nat) : Sys :=
  match s.pcs[i]? with
  | some Pc.at_sem_wait =>
    match sem_wait s.sem with
    | some sem1 => { sem := sem1, pcs := s.pcs.set i Pc.in_bus_section }
    | none => s
  | some Pc.in_bus_section =>
    { sem := sem_signal s.sem, pcs := s.pcs.set i Pc.at_task_wait }
  | some Pc.at_task_wait =>
    { s with pcs := s.pcs.set i Pc.at_sem_wait }
  | none => s

/-- The state after the scheduler has run the tasks named by `schedule`, in
that order. -/
def run_schedule (s : Sys) (schedule : List Nat) : Sys :=
  schedule.foldl task_step s

/-- The number of tasks between their `sem_wait` and their `sem_signal`. -/
def holders (s : Sys) : Nat :=
  s.pcs.count Pc.in_bus_section

/-- The ticks of a call, if it is a `task_wait`. -/
def Call.ticks {M : Type} : Call M → Option Nat
  | .task_wait t => some t
  | _ => none

/-- The invariant of the interleaving: the semaphore value and the number of
tasks inside the bus section add up to the initial value 1, and the maximum
count stays 10. -/
def BusInv (s : Sys) : Prop :=
  s.sem.value + holders s = 1 ∧ s.sem.maxCount = 10

/-! ## Task creation in `main` -/

/-- The task procedures of `main.c`. -/
inductive TaskProc where
  | sensorTask
  | controlTask
  | displayTask
  deriving DecidableEq, Repr

/-- The task data a task of `main.c` is created with. -/
inductive TaskDataRef where
  | tempTaskData
  | gyroTaskData
  | display
  deriving DecidableEq, Repr

/-- One `task_create` call of `main`: procedure, data and priority. -/
structure TaskCreate where
  proc : TaskProc
  data : TaskDataRef
  prio : Nat
  deriving DecidableEq, Repr

/-- The part of `main` from the sensor initialisation to the last
`task_create`.  `temp` and `gyro` are the sensors returned by
`get_temp_sensor()` and `gyroSensor_get()`; `TEMP_DATA`, `GYRO_DATA` are the
message ids of the missing headers and `tempEvt` the handle created for the
temperature sensor.  Returns the two sensors after their `init` and the tasks
created, in order. -/
def main_create_tasks {σ : Type} (temp gyro : MainC.Sensor σ)
    (TEMP_DATA GYRO_DATA tempEvt : Nat) :
    (MainC.Sensor σ × MainC.Sensor σ) × List TaskCreate :=
  let pollIntervalMS := 500
  let temp1 := { temp with hw := temp.control.init TEMP_DATA (some tempEvt) pollIntervalMS temp.hw }
  let gyro1 := { gyro with hw := gyro.control.init GYRO_DATA none pollIntervalMS gyro.hw }
  ((temp1, gyro1),
    [ { proc := .sensorTask, data := .tempTaskData, prio := 10 },
      { proc := .sensorTask, data := .gyroTaskData, prio := 20 },
      { proc := .controlTask, data := .tempTaskData, prio := 30 },
      { proc := .displayTask, data := .display, prio := 50 } ])

/-! ## Example sensors used to evaluate the definitions -/

/-- A `sensor.cpp` sensor as its constructor leaves it (no id, no event, no
interval yet).  Its driver state is the next poll result; its read fills the
buffer with 40, 41, ... and reports `returned` values. -/
def demoSensor (returned : Nat) (pollResult : Nat) : SensorCpp.Sensor Nat Nat :=
  { info :=
      { name := [116, 109, 112, 0]
        id := 0
        event := none
        poll_interval := 0
        poll_sensor_func := fun hw => (hw, hw)
        receive_sensor_data_func := fun hw _ _ => (returned, fun i => 40 + i, hw) }
    control :=
      { init_sensor_func := fun hw => hw
        next_channel_func := fun hw => hw
        prev_channel_func := fun hw => hw }
    hw := pollResult }

/-- A context not yet set up, with a cleared buffer. -/
def blankContext (returned : Nat) (pollResult : Nat) : SensorCpp.SensorContext Nat Nat :=
  { sensor := demoSensor returned pollResult
    data := fun _ => 0
    count := 0
    display_task_id := 0 }

/-- The context of `demoSensor` after `setup_sensor_context` as the first
registration (counter at 1), with event handle 0, a polling interval of 500
and display task 3. -/
def demoContext (returned : Nat) (pollResult : Nat) : SensorCpp.SensorContext Nat Nat :=
  (SensorCpp.setup_sensor_context 1 0 (blankContext returned pollResult)
    (demoSensor returned pollResult) 500 3).2

/-- A `main.c` sensor registered the way `main` registers the temperature
sensor when `event` is `some _` (event and period both given) and the gyro
sensor when it is `none`.  Its read fills the whole buffer it is given and
reports `size` bytes. -/
def demoMainSensor (event : Option Nat) (period_ms : Nat) (pollResult : Nat) :
    MainC.Sensor Nat :=
  { info :=
      { name := [116, 109, 112, 0]
        event := event
        id := 34
        period_ms := period_ms
        poll := fun hw => (hw, hw)
        data := fun hw buf size => (size, fun i => if i < size then 65 else buf i, hw) }
    control :=
      { init := fun _ _ _ hw => hw
        next_channel := fun hw => hw + 1
        prev_channel := fun hw => hw - 1 }
    hw := pollResult }

/-- Task data bound to `demoMainSensor`; every byte at and after the buffer
holds 170. -/
def demoTaskData (event : Option Nat) (period_ms : Nat) (pollResult : Nat) :
    MainC.TaskData_t Nat :=
  { sensor := demoMainSensor event period_ms pollResult
    data := fun _ => 170 }

/-- The registration used to evaluate sequences of calls. -/
def demoSetupCall : SensorCpp.SetupCall Nat Nat :=
  { context := blankContext 3 0
    sensor := demoSensor 3 0
    pollInterval := 500
    displayTaskID := 3
    event := 0 }

/-! ## The acquire/release trace of a sensor task (C1) -/

theorem semTrace_append {M : Type} (a b : List (Call M)) :
    semTrace (a ++ b) = semTrace a ++ semTrace b := by
  simp [semTrace]

/-- A pass of `sensor_task` in which the poll reports new data. -/
theorem SensorCpp.cycle_new_data {σ α : Type} (sz nsz : Nat)
    (context : SensorCpp.SensorContext σ α)
    (h : 0 < u8 (context.sensor.info.poll_sensor_func context.sensor.hw).1) :
    SensorCpp.sensor_task_cycle sz nsz context
      = (SensorCpp.read_sensor sz context
            (context.sensor.info.poll_sensor_func context.sensor.hw).2,
          [Call.task_get_data, Call.sem_wait, Call.task_get_data, Call.poll,
           Call.receive (u8 sz),
           Call.msg_post context.display_task_id
             (SensorCpp.build_msg sz nsz (SensorCpp.read_sensor sz context
               (context.sensor.info.poll_sensor_func context.sensor.hw).2)),
           Call.sem_signal, Call.task_wait context.sensor.info.poll_interval]) := by
  simp only [SensorCpp.sensor_task_cycle, gt_iff_lt, h, if_true]
  rfl

/-- A pass of `sensor_task` in which the poll reports no new data. -/
theorem SensorCpp.cycle_no_data {σ α : Type} (sz nsz : Nat)
    (context : SensorCpp.SensorContext σ α)
    (h : ¬ 0 < u8 (context.sensor.info.poll_sensor_func context.sensor.hw).1) :
    SensorCpp.sensor_task_cycle sz nsz context
      = ({ context with sensor := { context.sensor with
              hw := (context.sensor.info.poll_sensor_func context.sensor.hw).2 } },
          [Call.task_get_data, Call.sem_wait, Call.task_get_data, Call.poll,
           Call.sem_signal, Call.task_wait context.sensor.info.poll_interval]) := by
  simp only [SensorCpp.sensor_task_cycle, gt_iff_lt, h, if_false]

/-- A pass of `sensorTask` in which the poll reports new data. -/
theorem MainC.sensorTask_new_data {σ : Type} (dataPtr displayTaskId : Nat)
    (taskData : MainC.TaskData_t σ)
    (h : u8 (taskData.sensor.info.poll taskData.sensor.hw).1 ≠ 0) :
    (MainC.sensorTask_cycle dataPtr displayTaskId taskData).2
      = [Call.task_get_data, Call.sem_wait, Call.task_get_data, Call.poll,
         Call.receive MainC.dataSize,
         Call.msg_post displayTaskId { signal := taskData.sensor.info.id, data := dataPtr },
         Call.sem_signal, Call.task_wait taskData.sensor.info.period_ms] := by
  simp only [MainC.sensorTask_cycle, h, ne_eq, not_false_eq_true, if_true]

/-- A pass of `sensorTask` in which the poll reports no new data. -/
theorem MainC.sensorTask_no_data {σ : Type} (dataPtr displayTaskId : Nat)
    (taskData : MainC.TaskData_t σ)
    (h : ¬ u8 (taskData.sensor.info.poll taskData.sensor.hw).1 ≠ 0) :
    (MainC.sensorTask_cycle dataPtr displayTaskId taskData).2
      = [Call.task_get_data, Call.sem_wait, Call.task_get_data, Call.poll,
         Call.sem_signal, Call.task_wait taskData.sensor.info.period_ms] := by
  simp only [MainC.sensorTask_cycle, h, if_false]

theorem SensorCpp.semTrace_cycle {σ α : Type} (sz nsz : Nat)
    (context : SensorCpp.SensorContext σ α) :
    semTrace (SensorCpp.sensor_task_cycle sz nsz context).2
      = [SemOp.acquire, SemOp.release] := by
  by_cases h : 0 < u8 (context.sensor.info.poll_sensor_func context.sensor.hw).1
  · rw [SensorCpp.cycle_new_data sz nsz context h]; rfl
  · rw [SensorCpp.cycle_no_data sz nsz context h]; rfl

theorem MainC.semTrace_sensorTask {σ : Type} (dataPtr displayTaskId : Nat)
    (taskData : MainC.TaskData_t σ) :
    semTrace (MainC.sensorTask_cycle dataPtr displayTaskId taskData).2
      = [SemOp.acquire, SemOp.release] := by
  by_cases h : u8 (taskData.sensor.info.poll taskData.sensor.hw).1 ≠ 0
  · rw [MainC.sensorTask_new_data dataPtr displayTaskId taskData h]; rfl
  · rw [MainC.sensorTask_no_data dataPtr displayTaskId taskData h]; rfl

theorem SensorCpp.semTrace_run {σ α : Type} (sz nsz : Nat) (env : List (σ → σ)) :
    ∀ context : SensorCpp.SensorContext σ α,
      semTrace (SensorCpp.sensor_task_run sz nsz context env).2
        = (List.replicate env.length [SemOp.acquire, SemOp.release]).flatten := by
  induction env with
  | nil => intro context; rfl
  | cons e env ih =>
    intro context
    simp only [SensorCpp.sensor_task_run, semTrace_append, SensorCpp.semTrace_cycle, ih,
      List.length_cons, List.replicate_succ, List.flatten_cons]

theorem MainC.semTrace_sensorTask_run {σ : Type} (dataPtr displayTaskId : Nat) (env : List (σ → σ)) :
    ∀ taskData : MainC.TaskData_t σ,
      semTrace (MainC.sensorTask_run dataPtr displayTaskId taskData env).2
        = (List.replicate env.length [SemOp.acquire, SemOp.release]).flatten := by
  induction env with
  | nil => intro taskData; rfl
  | cons e env ih =>
    intro taskData
    simp only [MainC.sensorTask_run, semTrace_append, MainC.semTrace_sensorTask, ih,
      List.length_cons, List.replicate_succ, List.flatten_cons]

/-- The shape of one pass of `sensor_task`: some calls holding exactly one
`sem_wait` and no wait on a trigger, then `sem_signal`, then `task_wait`. -/
theorem SensorCpp.cycle_shape {σ α : Type} (sz nsz : Nat)
    (context : SensorCpp.SensorContext σ α) :
    ∃ pre,
      (SensorCpp.sensor_task_cycle sz nsz context).2
        = pre ++ [Call.sem_signal, Call.task_wait context.sensor.info.poll_interval]
      ∧ semTrace pre = [SemOp.acquire]
      ∧ pre.any Call.isTaskWait = false ∧ pre.any Call.isEventWait = false := by
  by_cases h : 0 < u8 (context.sensor.info.poll_sensor_func context.sensor.hw).1
  · rw [SensorCpp.cycle_new_data sz nsz context h]
    exact ⟨[.task_get_data, .sem_wait, .task_get_data, .poll, .receive (u8 sz),
      .msg_post _ _], rfl, rfl, rfl, rfl⟩
  · rw [SensorCpp.cycle_no_data sz nsz context h]
    exact ⟨[.task_get_data, .sem_wait, .task_get_data, .poll], rfl, rfl, rfl, rfl⟩

/-- The shape of one pass of `sensorTask`: some calls holding exactly one
`sem_wait` and no wait on a trigger, then `sem_signal`, then `task_wait`. -/
theorem MainC.sensorTask_shape {σ : Type} (dataPtr displayTaskId : Nat)
    (taskData : MainC.TaskData_t σ) :
    ∃ pre,
      (MainC.sensorTask_cycle dataPtr displayTaskId taskData).2
        = pre ++ [Call.sem_signal, Call.task_wait taskData.sensor.info.period_ms]
      ∧ semTrace pre = [SemOp.acquire]
      ∧ pre.any Call.isTaskWait = false ∧ pre.any Call.isEventWait = false := by
  by_cases h : u8 (taskData.sensor.info.poll taskData.sensor.hw).1 ≠ 0
  · rw [MainC.sensorTask_new_data dataPtr displayTaskId taskData h]
    exact ⟨[.task_get_data, .sem_wait, .task_get_data, .poll, .receive MainC.dataSize,
      .msg_post _ _], rfl, rfl, rfl, rfl⟩
  · rw [MainC.sensorTask_no_data dataPtr displayTaskId taskData h]
    exact ⟨[.task_get_data, .sem_wait, .task_get_data, .poll], rfl, rfl, rfl, rfl⟩

/-- Claim C1: every pass of `sensor_task` and of `sensorTask`, whatever the
poll reports, makes exactly one `sem_wait` followed by exactly one
`sem_signal`, and the `sem_signal` comes right before the pass's trigger wait;
over the `N` passes of a run the acquire/release trace is `N` repetitions of
acquire, release. -/
theorem C1_acquire_release_alternate {σ α : Type} (sz nsz : Nat)
    (context : SensorCpp.SensorContext σ α) (env : List (σ → σ))
    (dataPtr displayTaskId : Nat) (taskData : MainC.TaskData_t σ) :
    (semTrace (SensorCpp.sensor_task_cycle sz nsz context).2
        = [SemOp.acquire, SemOp.release]
      ∧ ∃ pre,
          (SensorCpp.sensor_task_cycle sz nsz context).2
            = pre ++ [Call.sem_signal, Call.task_wait context.sensor.info.poll_interval]
          ∧ semTrace pre = [SemOp.acquire]
          ∧ pre.any Call.isTaskWait = false ∧ pre.any Call.isEventWait = false)
    ∧ (semTrace (MainC.sensorTask_cycle dataPtr displayTaskId taskData).2
        = [SemOp.acquire, SemOp.release]
      ∧ ∃ pre,
          (MainC.sensorTask_cycle dataPtr displayTaskId taskData).2
            = pre ++ [Call.sem_signal, Call.task_wait taskData.sensor.info.period_ms]
          ∧ semTrace pre = [SemOp.acquire]
          ∧ pre.any Call.isTaskWait = false ∧ pre.any Call.isEventWait = false)
    ∧ semTrace (SensorCpp.sensor_task_run sz nsz context env).2
        = (List.replicate env.length [SemOp.acquire, SemOp.release]).flatten
    ∧ semTrace (MainC.sensorTask_run dataPtr displayTaskId taskData env).2
        = (List.replicate env.length [SemOp.acquire, SemOp.release]).flatten :=
  ⟨⟨SensorCpp.semTrace_cycle sz nsz context, SensorCpp.cycle_shape sz nsz context⟩,
   ⟨MainC.semTrace_sensorTask dataPtr displayTaskId taskData,
    MainC.sensorTask_shape dataPtr displayTaskId taskData⟩,
   SensorCpp.semTrace_run sz nsz env context,
   MainC.semTrace_sensorTask_run dataPtr displayTaskId env taskData⟩

/-! ## The semaphore is held while the message is posted (C5) -/

/-- Claim C5 fails as stated: in a pass with new data, of `sensor_task` as of
`sensorTask`, the `msg_post` is the sixth call and the `sem_signal` the
seventh, so the post is made while the semaphore is held. -/
theorem C5_post_precedes_signal :
    (SensorCpp.sensor_task_cycle 3 3 (demoContext 3 1)).2.findIdx Call.isMsgPost = 5
    ∧ (SensorCpp.sensor_task_cycle 3 3 (demoContext 3 1)).2.findIdx Call.isSemSignal = 6
    ∧ (MainC.sensorTask_cycle 0 3 (demoTaskData (some 0) 500 1)).2.findIdx Call.isMsgPost = 5
    ∧ (MainC.sensorTask_cycle 0 3 (demoTaskData (some 0) 500 1)).2.findIdx Call.isSemSignal
        = 6 := by
  refine ⟨?_, ?_, ?_, ?_⟩ <;> decide

/-- Claim C5, amended: in every pass with new data, of `sensor_task` and of
`sensorTask`, the single `msg_post` comes after the pass's `sem_wait` and
before its `sem_signal`: the calls before the post hold the acquire and no
release, the calls after it hold the release and no acquire. -/
theorem C5_post_inside_bus_section {σ α : Type} (sz nsz : Nat)
    (context : SensorCpp.SensorContext σ α)
    (dataPtr displayTaskId : Nat) (taskData : MainC.TaskData_t σ)
    (h1 : 0 < u8 (context.sensor.info.poll_sensor_func context.sensor.hw).1)
    (h2 : u8 (taskData.sensor.info.poll taskData.sensor.hw).1 ≠ 0) :
    (∃ pre m post,
        (SensorCpp.sensor_task_cycle sz nsz context).2
          = pre ++ Call.msg_post context.display_task_id m :: post
        ∧ semTrace pre = [SemOp.acquire] ∧ semTrace post = [SemOp.release]
        ∧ pre.any Call.isMsgPost = false ∧ post.any Call.isMsgPost = false)
    ∧ (∃ pre m post,
        (MainC.sensorTask_cycle dataPtr displayTaskId taskData).2
          = pre ++ Call.msg_post displayTaskId m :: post
        ∧ semTrace pre = [SemOp.acquire] ∧ semTrace post = [SemOp.release]
        ∧ pre.any Call.isMsgPost = false ∧ post.any Call.isMsgPost = false) := by
  constructor
  · rw [SensorCpp.cycle_new_data sz nsz context h1]
    exact ⟨[.task_get_data, .sem_wait, .task_get_data, .poll, .receive (u8 sz)], _,
      [.sem_signal, .task_wait context.sensor.info.poll_interval], rfl, rfl, rfl, rfl, rfl⟩
  · rw [MainC.sensorTask_new_data dataPtr displayTaskId taskData h2]
    exact ⟨[.task_get_data, .sem_wait, .task_get_data, .poll, .receive MainC.dataSize], _,
      [.sem_signal, .task_wait taskData.sensor.info.period_ms], rfl, rfl, rfl, rfl, rfl⟩

/-- Witness of `C5_post_inside_bus_section` on the example sensors, both
polls reporting new data. -/
theorem C5_post_inside_bus_section_witness :
    (0 < u8 ((demoContext 3 1).sensor.info.poll_sensor_func (demoContext 3 1).sensor.hw).1
      ∧ u8 ((demoTaskData none 500 1).sensor.info.poll (demoTaskData none 500 1).sensor.hw).1
          ≠ 0)
    ∧ (∃ pre m post,
        (SensorCpp.sensor_task_cycle 3 3 (demoContext 3 1)).2
          = pre ++ Call.msg_post (demoContext 3 1).display_task_id m :: post
        ∧ semTrace pre = [SemOp.acquire] ∧ semTrace post = [SemOp.release]
        ∧ pre.any Call.isMsgPost = false ∧ post.any Call.isMsgPost = false)
    ∧ (∃ pre m post,
        (MainC.sensorTask_cycle 0 3 (demoTaskData none 500 1)).2
          = pre ++ Call.msg_post 3 m :: post
        ∧ semTrace pre = [SemOp.acquire] ∧ semTrace post = [SemOp.release]
        ∧ pre.any Call.isMsgPost = false ∧ post.any Call.isMsgPost = false) :=
  ⟨⟨by decide, by decide⟩,
    C5_post_inside_bus_section 3 3 (demoContext 3 1) 0 3 (demoTaskData none 500 1)
      (by decide) (by decide)⟩

/-! ## The wait at the end of a pass (C6) -/

/-- Claim C6 fails as stated: the sensor registered with an event (as `main`
registers the temperature sensor: event and period 500) ends its pass with
`task_wait(500)` and makes no `event_wait`, with or without new data. -/
theorem C6_event_sensor_waits_on_timeout :
    (demoTaskData (some 0) 500 1).sensor.info.event = some 0
    ∧ (MainC.sensorTask_cycle 0 3 (demoTaskData (some 0) 500 1)).2.getLast?.map Call.isTaskWait
        = some true
    ∧ (MainC.sensorTask_cycle 0 3 (demoTaskData (some 0) 500 1)).2.any Call.isEventWait = false
    ∧ (MainC.sensorTask_cycle 0 3 (demoTaskData (some 0) 500 0)).2.getLast?.map Call.isTaskWait
        = some true
    ∧ (MainC.sensorTask_cycle 0 3 (demoTaskData (some 0) 500 0)).2.any Call.isEventWait
        = false := by
  refine ⟨?_, ?_, ?_, ?_, ?_⟩ <;> decide

/-- Claim C6, amended: for every sensor, whatever its configuration (event
set or null, any period), a pass of `sensorTask` or of `sensor_task` ends with
the timeout wait `task_wait` on the sensor's period, makes that one timeout
wait only, and makes no wait on an event. -/
theorem C6_wait_is_the_period_timeout {σ α : Type} (sz nsz : Nat)
    (context : SensorCpp.SensorContext σ α)
    (dataPtr displayTaskId : Nat) (taskData : MainC.TaskData_t σ) :
    ((MainC.sensorTask_cycle dataPtr displayTaskId taskData).2.getLast?
        = some (Call.task_wait taskData.sensor.info.period_ms)
      ∧ (MainC.sensorTask_cycle dataPtr displayTaskId taskData).2.countP Call.isTaskWait = 1
      ∧ (MainC.sensorTask_cycle dataPtr displayTaskId taskData).2.any Call.isEventWait = false)
    ∧ ((SensorCpp.sensor_task_cycle sz nsz context).2.getLast?
        = some (Call.task_wait context.sensor.info.poll_interval)
      ∧ (SensorCpp.sensor_task_cycle sz nsz context).2.countP Call.isTaskWait = 1
      ∧ (SensorCpp.sensor_task_cycle sz nsz context).2.any Call.isEventWait = false) := by
  constructor
  · by_cases h : u8 (taskData.sensor.info.poll taskData.sensor.hw).1 ≠ 0
    · rw [MainC.sensorTask_new_data dataPtr displayTaskId taskData h]
      exact ⟨rfl, rfl, rfl⟩
    · rw [MainC.sensorTask_no_data dataPtr displayTaskId taskData h]
      exact ⟨rfl, rfl, rfl⟩
  · by_cases h : 0 < u8 (context.sensor.info.poll_sensor_func context.sensor.hw).1
    · rw [SensorCpp.cycle_new_data sz nsz context h]
      exact ⟨rfl, rfl, rfl⟩
    · rw [SensorCpp.cycle_no_data sz nsz context h]
      exact ⟨rfl, rfl, rfl⟩

/-! ## Sensor ids (C7) -/

theorem u8_succ_u8 (m : Nat) : u8 (u8 m + 1) = u8 (m + 1) := by
  unfold u8
  omega

/-- The ids and the final counter of a sequence of registrations that starts
with the counter at `u8 m`. -/
theorem SensorCpp.setup_all_ids {σ α : Type} (cs : List (SensorCpp.SetupCall σ α)) :
    ∀ m : Nat,
      SensorCpp.assigned_ids (u8 m) cs = (List.range cs.length).map (fun k => u8 (m + k))
      ∧ (SensorCpp.setup_all (u8 m) cs).1 = u8 (m + cs.length) := by
  induction cs with
  | nil => intro m; exact ⟨rfl, rfl⟩
  | cons c cs ih =>
    intro m
    have h := ih (m + 1)
    unfold SensorCpp.assigned_ids at h ⊢
    simp only [SensorCpp.setup_all, SensorCpp.setup_sensor_context, u8_succ_u8,
      List.map_cons, List.length_cons, List.range_succ_eq_map, List.map_map]
    refine ⟨?_, ?_⟩
    · rw [h.1]
      simp only [Nat.add_zero, List.cons.injEq, true_and]
      apply List.map_congr_left
      intro k _
      simp only [Function.comp, Nat.succ_eq_add_one]
      congr 1
      omega
    · rw [h.2]
      congr 1
      omega

/-- Claim C7 fails as stated: with the counter kept in 8 bits, the 255th call
is given id 255 and the 256th call id 0, so the ids of 256 calls do not
increase; the 257th call is given id 1 again. -/
theorem C7_ids_wrap_after_255 :
    (SensorCpp.assigned_ids 1 (List.replicate 257 demoSetupCall))[254]? = some 255
    ∧ (SensorCpp.assigned_ids 1 (List.replicate 257 demoSetupCall))[255]? = some 0
    ∧ (SensorCpp.assigned_ids 1 (List.replicate 257 demoSetupCall))[256]? = some 1
    ∧ (SensorCpp.assigned_ids 1 (List.replicate 257 demoSetupCall))[0]? = some 1
    ∧ (SensorCpp.setup_all 1 (List.replicate 255 demoSetupCall)).1 = 0 := by
  have h := (SensorCpp.setup_all_ids (List.replicate 257 demoSetupCall) 1).1
  have h1 : u8 1 = 1 := rfl
  rw [h1] at h
  have h2 := (SensorCpp.setup_all_ids (List.replicate 255 demoSetupCall) 1).2
  rw [h1] at h2
  rw [h, h2]
  simp only [List.length_replicate, List.getElem?_map]
  refine ⟨?_, ?_, ?_, ?_, ?_⟩
  · rw [List.getElem?_range (by omega)]; rfl
  · rw [List.getElem?_range (by omega)]; rfl
  · rw [List.getElem?_range (by omega)]; rfl
  · rw [List.getElem?_range (by omega)]; rfl
  · rfl

/-- Claim C7, amended: for every sequence of at most 255 calls of
`setup_sensor_context` starting from `nextSensorID = 1`, the ids stored are
`1, 2, ..., n` in call order (the k-th call stores id k), hence strictly
increasing and pairwise distinct, and the counter is left at `n + 1` reduced
modulo 256. -/
theorem C7_ids_increase_up_to_255 {σ α : Type} (cs : List (SensorCpp.SetupCall σ α))
    (h : cs.length ≤ 255) :
    SensorCpp.assigned_ids 1 cs = List.range' 1 cs.length
    ∧ (SensorCpp.assigned_ids 1 cs).Pairwise (fun a b => a < b)
    ∧ (SensorCpp.assigned_ids 1 cs).Nodup
    ∧ (SensorCpp.setup_all 1 cs).1 = (cs.length + 1) % 256 := by
  have h0 := SensorCpp.setup_all_ids cs 1
  have h1 : u8 1 = 1 := rfl
  rw [h1] at h0
  have hids : SensorCpp.assigned_ids 1 cs = List.range' 1 cs.length := by
    rw [h0.1, List.range'_eq_map_range]
    apply List.map_congr_left
    intro k hk
    have hk1 : k < cs.length := List.mem_range.mp hk
    unfold u8
    omega
  refine ⟨hids, ?_, ?_, ?_⟩
  · rw [hids]; exact List.pairwise_lt_range' 1 cs.length
  · rw [hids]; exact List.nodup_range' 1 cs.length
  · rw [h0.2]; unfold u8; congr 1; omega

/-- Witness of `C7_ids_increase_up_to_255` on three registrations. -/
theorem C7_ids_increase_up_to_255_witness :
    (List.replicate 3 demoSetupCall).length ≤ 255
    ∧ SensorCpp.assigned_ids 1 (List.replicate 3 demoSetupCall)
        = List.range' 1 (List.replicate 3 demoSetupCall).length
    ∧ (SensorCpp.assigned_ids 1 (List.replicate 3 demoSetupCall)).Pairwise (fun a b => a < b)
    ∧ (SensorCpp.assigned_ids 1 (List.replicate 3 demoSetupCall)).Nodup
    ∧ (SensorCpp.setup_all 1 (List.replicate 3 demoSetupCall)).1
        = ((List.replicate 3 demoSetupCall).length + 1) % 256 :=
  ⟨by decide, C7_ids_increase_up_to_255 (List.replicate 3 demoSetupCall) (by decide)⟩

/-! ## The control task (C8) -/

theorem MainC.wake_next {σ : Type} (prevChEvt nextChEvt event : Nat)
    (taskData : MainC.TaskData_t σ) (h : event = nextChEvt) :
    MainC.controlTask_wake prevChEvt nextChEvt event taskData
      = ({ taskData with sensor := { taskData.sensor with
              hw := taskData.sensor.control.next_channel taskData.sensor.hw } },
          [MainC.ChannelCall.next_channel]) := by
  unfold MainC.controlTask_wake
  rw [if_pos h]

theorem MainC.wake_prev {σ : Type} (prevChEvt nextChEvt event : Nat)
    (taskData : MainC.TaskData_t σ) (h1 : ¬ event = nextChEvt) (h2 : event = prevChEvt) :
    MainC.controlTask_wake prevChEvt nextChEvt event taskData
      = ({ taskData with sensor := { taskData.sensor with
              hw := taskData.sensor.control.prev_channel taskData.sensor.hw } },
          [MainC.ChannelCall.prev_channel]) := by
  unfold MainC.controlTask_wake
  rw [if_neg h1, if_pos h2]

theorem MainC.wake_other {σ : Type} (prevChEvt nextChEvt event : Nat)
    (taskData : MainC.TaskData_t σ) (h1 : ¬ event = nextChEvt) (h2 : ¬ event = prevChEvt) :
    MainC.controlTask_wake prevChEvt nextChEvt event taskData = (taskData, []) := by
  unfold MainC.controlTask_wake
  rw [if_neg h1, if_neg h2]

/-- Claim C8: a wake of `controlTask` with last-signaled event `e` calls
`next_channel` once and nothing else when `e` is the next-channel event,
`prev_channel` once and nothing else when `e` is the previous-channel event,
and nothing otherwise; the calls depend on `e` only, at most one channel
operation runs per wake, and the buffer of the task data is left as it
was.  The two events are distinct handles. -/
theorem C8_control_wake_dispatch {σ : Type} (prevChEvt nextChEvt event : Nat)
    (taskData : MainC.TaskData_t σ) (hne : prevChEvt ≠ nextChEvt) :
    (event = nextChEvt →
        (MainC.controlTask_wake prevChEvt nextChEvt event taskData).2
          = [MainC.ChannelCall.next_channel]
        ∧ (MainC.controlTask_wake prevChEvt nextChEvt event taskData).1.sensor.hw
          = taskData.sensor.control.next_channel taskData.sensor.hw)
    ∧ (event = prevChEvt →
        (MainC.controlTask_wake prevChEvt nextChEvt event taskData).2
          = [MainC.ChannelCall.prev_channel]
        ∧ (MainC.controlTask_wake prevChEvt nextChEvt event taskData).1.sensor.hw
          = taskData.sensor.control.prev_channel taskData.sensor.hw)
    ∧ (event ≠ nextChEvt → event ≠ prevChEvt →
        (MainC.controlTask_wake prevChEvt nextChEvt event taskData).2 = []
        ∧ (MainC.controlTask_wake prevChEvt nextChEvt event taskData).1.sensor.hw
          = taskData.sensor.hw)
    ∧ (∀ other : MainC.TaskData_t σ,
        (MainC.controlTask_wake prevChEvt nextChEvt event other).2
          = (MainC.controlTask_wake prevChEvt nextChEvt event taskData).2)
    ∧ (MainC.controlTask_wake prevChEvt nextChEvt event taskData).2.length ≤ 1
    ∧ (MainC.controlTask_wake prevChEvt nextChEvt event taskData).1.data = taskData.data := by
  refine ⟨?_, ?_, ?_, ?_, ?_, ?_⟩
  · intro h
    rw [MainC.wake_next prevChEvt nextChEvt event taskData h]
    exact ⟨rfl, rfl⟩
  · intro h
    have h1 : ¬ event = nextChEvt := fun h2 => hne (h.symm.trans h2)
    rw [MainC.wake_prev prevChEvt nextChEvt event taskData h1 h]
    exact ⟨rfl, rfl⟩
  · intro h1 h2
    rw [MainC.wake_other prevChEvt nextChEvt event taskData h1 h2]
    exact ⟨rfl, rfl⟩
  · intro other
    by_cases h1 : event = nextChEvt
    · rw [MainC.wake_next _ _ _ _ h1, MainC.wake_next _ _ _ _ h1]
    · by_cases h2 : event = prevChEvt
      · rw [MainC.wake_prev _ _ _ _ h1 h2, MainC.wake_prev _ _ _ _ h1 h2]
      · rw [MainC.wake_other _ _ _ _ h1 h2, MainC.wake_other _ _ _ _ h1 h2]
  · by_cases h1 : event = nextChEvt
    · rw [MainC.wake_next _ _ _ _ h1]; exact Nat.le_refl 1
    · by_cases h2 : event = prevChEvt
      · rw [MainC.wake_prev _ _ _ _ h1 h2]; exact Nat.le_refl 1
      · rw [MainC.wake_other _ _ _ _ h1 h2]; exact Nat.zero_le 1
  · by_cases h1 : event = nextChEvt
    · rw [MainC.wake_next _ _ _ _ h1]
    · by_cases h2 : event = prevChEvt
      · rw [MainC.wake_prev _ _ _ _ h1 h2]
      · rw [MainC.wake_other _ _ _ _ h1 h2]

/-- Witness of `C8_control_wake_dispatch` with the previous-channel event 1,
the next-channel event 2 and a wake on event 2. -/
theorem C8_control_wake_dispatch_witness :
    (1 : Nat) ≠ 2
    ∧ (MainC.controlTask_wake 1 2 2 (demoTaskData (some 0) 500 7)).2
        = [MainC.ChannelCall.next_channel]
    ∧ (MainC.controlTask_wake 1 2 2 (demoTaskData (some 0) 500 7)).1.sensor.hw = 8 :=
  ⟨by decide,
    ((C8_control_wake_dispatch 1 2 2 (demoTaskData (some 0) 500 7) (by decide)).1 rfl).1,
    ((C8_control_wake_dispatch 1 2 2 (demoTaskData (some 0) 500 7) (by decide)).1 rfl).2⟩

/-- The last call of a pass of `sensor_task` is the timeout wait on the
sensor's polling interval. -/
theorem SensorCpp.cycle_getLast {σ α : Type} (sz nsz : Nat)
    (context : SensorCpp.SensorContext σ α) :
    (SensorCpp.sensor_task_cycle sz nsz context).2.getLast?
      = some (Call.task_wait context.sensor.info.poll_interval) := by
  by_cases h : 0 < u8 (context.sensor.info.poll_sensor_func context.sensor.hw).1
  · rw [SensorCpp.cycle_new_data sz nsz context h]; rfl
  · rw [SensorCpp.cycle_no_data sz nsz context h]; rfl

/-! ## Registration makes no check (C9) -/

/-- Claim C9 fails as stated: `setup_sensor_context` called for a sensor that
has no event, with a polling interval of 0, stores the interval 0, binds the
context to the sensor under a fresh id and advances the counter like any
other call, and the sensor task run on that context ends its pass in
`task_wait(0)` without a wait on an event. -/
theorem C9_zero_period_is_registered :
    (demoSensor 3 1).info.event = none
    ∧ (SensorCpp.setup_sensor_context 1 0 (blankContext 3 1) (demoSensor 3 1) 0 3).1 = 2
    ∧ (SensorCpp.setup_sensor_context 1 0 (blankContext 3 1) (demoSensor 3 1) 0 3).2.sensor.info.id
        = 1
    ∧ (SensorCpp.setup_sensor_context 1 0 (blankContext 3 1) (demoSensor 3 1) 0
          3).2.sensor.info.poll_interval = 0
    ∧ ((SensorCpp.sensor_task_cycle 3 3
          (SensorCpp.setup_sensor_context 1 0 (blankContext 3 1) (demoSensor 3 1) 0 3).2).2.getLast?.bind
        Call.ticks) = some 0
    ∧ (SensorCpp.sensor_task_cycle 3 3
          (SensorCpp.setup_sensor_context 1 0 (blankContext 3 1) (demoSensor 3 1) 0 3).2).2.any
        Call.isEventWait = false := by
  refine ⟨?_, ?_, ?_, ?_, ?_, ?_⟩ <;> decide

/-- Claim C9, amended: `setup_sensor_context` makes no check and has no
failure result: for every polling interval, 0 included, it stores the id, the
event and the interval in the sensor, binds the context to the sensor, runs
the sensor's init and advances the counter; the `sensor_task` pass on the
resulting context ends in `task_wait` on the stored interval.  In `main` the
result of `init` is not looked at: the four tasks are created whatever the
sensors and their `init` are. -/
theorem C9_registration_never_rejects {σ α : Type} (sz nsz : Nat)
    (nextSensorID event : Nat) (context : SensorCpp.SensorContext σ α)
    (sensor : SensorCpp.Sensor σ α) (pollInterval displayTaskID : Nat)
    (temp gyro : MainC.Sensor σ) (TEMP_DATA GYRO_DATA tempEvt : Nat) :
    ((SensorCpp.setup_sensor_context nextSensorID event context sensor pollInterval
          displayTaskID).1 = u8 (nextSensorID + 1)
      ∧ (SensorCpp.setup_sensor_context nextSensorID event context sensor pollInterval
          displayTaskID).2.sensor.info.id = nextSensorID
      ∧ (SensorCpp.setup_sensor_context nextSensorID event context sensor pollInterval
          displayTaskID).2.sensor.info.event = some event
      ∧ (SensorCpp.setup_sensor_context nextSensorID event context sensor pollInterval
          displayTaskID).2.sensor.info.poll_interval = u16 pollInterval
      ∧ (SensorCpp.setup_sensor_context nextSensorID event context sensor pollInterval
          displayTaskID).2.sensor.hw = sensor.control.init_sensor_func sensor.hw
      ∧ (SensorCpp.sensor_task_cycle sz nsz
          (SensorCpp.setup_sensor_context nextSensorID event context sensor pollInterval
            displayTaskID).2).2.getLast? = some (Call.task_wait (u16 pollInterval)))
    ∧ (main_create_tasks temp gyro TEMP_DATA GYRO_DATA tempEvt).2
        = [ { proc := TaskProc.sensorTask, data := TaskDataRef.tempTaskData, prio := 10 },
            { proc := TaskProc.sensorTask, data := TaskDataRef.gyroTaskData, prio := 20 },
            { proc := TaskProc.controlTask, data := TaskDataRef.tempTaskData, prio := 30 },
            { proc := TaskProc.displayTask, data := TaskDataRef.display, prio := 50 } ] := by
  refine ⟨⟨rfl, rfl, rfl, rfl, rfl, ?_⟩, rfl⟩
  exact SensorCpp.cycle_getLast sz nsz
    (SensorCpp.setup_sensor_context nextSensorID event context sensor pollInterval
      displayTaskID).2

/-! ## The terminator store of `sensorTask` (C10) -/

/-- Where the terminator store lands inside the buffer: whenever the value
returned by the data function, as a `uint8_t`, is below 64. -/
theorem MainC.terminator_inside (returned : Nat) (h : u8 returned < 64) :
    MainC.terminator_index returned < MainC.dataSize := h

/-- Claim C10 evaluated at a read that fills the buffer: the data function,
called with size 64, returns 64; the terminator store then goes to offset 64,
which is not below the buffer length 64, and the byte there, 170 before the
pass, is 0 after it. -/
theorem C10_terminator_past_buffer :
    ((demoTaskData none 500 1).sensor.info.data 1 (demoTaskData none 500 1).data
        MainC.dataSize).1 = 64
    ∧ MainC.terminator_index 64 = 64
    ∧ ¬ MainC.terminator_index 64 < MainC.dataSize
    ∧ (demoTaskData none 500 1).data 64 = 170
    ∧ (MainC.sensorTask_cycle 0 3 (demoTaskData none 500 1)).1.data 64 = 0
    ∧ (MainC.sensorTask_cycle 0 3 (demoTaskData none 500 1)).1.data 63 = 65 := by
  refine ⟨?_, ?_, ?_, ?_, ?_, ?_⟩ <;> decide

/-! ## The count field of the message (C4) -/

/-- Claim C4 fails as stated: with room for 3 values and a data function
that reports 200, the message posted has `count = 200`. -/
theorem C4_count_exceeds_capacity :
    ((demoContext 200 1).sensor.info.receive_sensor_data_func 1 (demoContext 200 1).data
        (u8 3)).1 = 200
    ∧ (posted (SensorCpp.sensor_task_cycle 3 3 (demoContext 200 1)).2).map (fun m => m.count)
        = [200]
    ∧ ¬ 200 ≤ 3 := by
  refine ⟨?_, ?_, ?_⟩ <;> decide

/-- The slots of the message after the copy loop entered at index `i`:
slot `j` holds the context value when `i ≤ j`, `j < count` and
`j < sensorDataSize`, and is untouched otherwise. -/
theorem SensorCpp.copy_sensor_data_spec {α : Type} (src : Nat → α) (count sz : Nat) :
    ∀ (n i : Nat) (dst : Nat → Option α), sz - i = n → ∀ j,
      SensorCpp.copy_sensor_data src count sz i dst j
        = if i ≤ j ∧ j < count ∧ j < sz then some (src j) else dst j := by
  intro n
  induction n with
  | zero =>
    intro i dst hn j
    rw [SensorCpp.copy_sensor_data]
    have h1 : ¬ (i < count ∧ i < sz) := by omega
    have h2 : ¬ (i ≤ j ∧ j < count ∧ j < sz) := by omega
    rw [if_neg h1, if_neg h2]
  | succ n ih =>
    intro i dst hn j
    rw [SensorCpp.copy_sensor_data]
    by_cases h1 : i < count ∧ i < sz
    · rw [if_pos h1, ih (i + 1) _ (by omega) j]
      by_cases hj : j = i
      · subst hj
        have h2 : ¬ (j + 1 ≤ j ∧ j < count ∧ j < sz) := by omega
        have h3 : j ≤ j ∧ j < count ∧ j < sz := ⟨Nat.le_refl j, h1.1, h1.2⟩
        rw [if_neg h2, if_pos h3, Function.update_same]
      · rw [Function.update_noteq hj]
        by_cases h4 : i ≤ j ∧ j < count ∧ j < sz
        · have h5 : i + 1 ≤ j ∧ j < count ∧ j < sz := by omega
          rw [if_pos h4, if_pos h5]
        · have h5 : ¬ (i + 1 ≤ j ∧ j < count ∧ j < sz) := by omega
          rw [if_neg h4, if_neg h5]
    · rw [if_neg h1]
      by_cases h4 : i ≤ j ∧ j < count ∧ j < sz
      · exfalso; omega
      · rw [if_neg h4]

/-- The data slots of the message built by `sensor_task`. -/
theorem SensorCpp.build_msg_data {σ α : Type} (sz nsz : Nat)
    (context : SensorCpp.SensorContext σ α) (j : Nat) :
    (SensorCpp.build_msg sz nsz context).data j
      = if j < context.count ∧ j < sz then some (context.data j) else none := by
  unfold SensorCpp.build_msg
  simp only
  rw [SensorCpp.copy_sensor_data_spec context.data context.count sz (sz - 0) 0 _ rfl j]
  simp only [Nat.zero_le, true_and]

/-- The envelopes posted by a pass of `sensor_task` with new data. -/
theorem SensorCpp.posted_new_data {σ α : Type} (sz nsz : Nat)
    (context : SensorCpp.SensorContext σ α)
    (h : 0 < u8 (context.sensor.info.poll_sensor_func context.sensor.hw).1) :
    posted (SensorCpp.sensor_task_cycle sz nsz context).2
      = [SensorCpp.build_msg sz nsz (SensorCpp.read_sensor sz context
          (context.sensor.info.poll_sensor_func context.sensor.hw).2)] := by
  rw [SensorCpp.cycle_new_data sz nsz context h]
  rfl

/-- Claim C4, amended: in a pass of `sensor_task` with new data, `msg.count`
is the value returned by `receive_sensor_data_func` (as a `uint8_t`); when
that value is at most `sensorDataSize`, as the size argument asks, `msg.count`
is at most `sensorDataSize`; and every slot the copy writes lies below both
`msg.count` and `sensorDataSize`. -/
theorem C4_count_is_returned_value {σ α : Type} (sz nsz : Nat)
    (context : SensorCpp.SensorContext σ α)
    (h : 0 < u8 (context.sensor.info.poll_sensor_func context.sensor.hw).1)
    (hc : u8 (context.sensor.info.receive_sensor_data_func
            (context.sensor.info.poll_sensor_func context.sensor.hw).2
            context.data (u8 sz)).1 ≤ sz) :
    ∃ m, posted (SensorCpp.sensor_task_cycle sz nsz context).2 = [m]
      ∧ m.count = u8 (context.sensor.info.receive_sensor_data_func
            (context.sensor.info.poll_sensor_func context.sensor.hw).2
            context.data (u8 sz)).1
      ∧ m.count ≤ sz
      ∧ ∀ j, m.data j ≠ none → j < m.count ∧ j < sz := by
  refine ⟨_, SensorCpp.posted_new_data sz nsz context h, rfl, hc, ?_⟩
  intro j hj
  rw [SensorCpp.build_msg_data] at hj
  by_cases h1 : j < (SensorCpp.read_sensor sz context
      (context.sensor.info.poll_sensor_func context.sensor.hw).2).count ∧ j < sz
  · exact h1
  · rw [if_neg h1] at hj
    exact absurd rfl hj

/-- Witness of `C4_count_is_returned_value`: room for 3 values, 2 reported. -/
theorem C4_count_is_returned_value_witness :
    (0 < u8 ((demoContext 2 1).sensor.info.poll_sensor_func (demoContext 2 1).sensor.hw).1
      ∧ u8 ((demoContext 2 1).sensor.info.receive_sensor_data_func
            ((demoContext 2 1).sensor.info.poll_sensor_func (demoContext 2 1).sensor.hw).2
            (demoContext 2 1).data (u8 3)).1 ≤ 3)
    ∧ ∃ m, posted (SensorCpp.sensor_task_cycle 3 3 (demoContext 2 1)).2 = [m]
      ∧ m.count = u8 ((demoContext 2 1).sensor.info.receive_sensor_data_func
            ((demoContext 2 1).sensor.info.poll_sensor_func (demoContext 2 1).sensor.hw).2
            (demoContext 2 1).data (u8 3)).1
      ∧ m.count ≤ 3
      ∧ ∀ j, m.data j ≠ none → j < m.count ∧ j < 3 :=
  ⟨⟨by decide, by decide⟩,
    C4_count_is_returned_value 3 3 (demoContext 2 1) (by decide) (by decide)⟩

/-! ## The contents of the message (C3) -/

theorem posted_append {M : Type} (a b : List (Call M)) :
    posted (a ++ b) = posted a ++ posted b := by
  simp [posted]

/-- The name field after `memset` and `strncpy`: the first `n` characters of
the source string, then NUL up to the length `n + 1`. -/
theorem msg_name_eq (name : List Nat) (n : Nat) :
    strncpy (memset_zero [] (n + 1)) name n
      = (cstr name).take n ++ List.replicate (n - (cstr name).length + 1) 0 := by
  unfold strncpy memset_zero
  simp only [List.drop_nil, List.append_nil, List.drop_replicate, Nat.add_sub_cancel_left,
    List.replicate_one, List.append_assoc]
  rw [List.replicate_succ']

/-- The C string held by the name field is the first `n` characters of the
source string. -/
theorem cstr_msg_name (name : List Nat) (n : Nat) :
    cstr (strncpy (memset_zero [] (n + 1)) name n) = (cstr name).take n := by
  rw [msg_name_eq]
  have hall : ∀ x ∈ (cstr name).take n, (fun c : Nat => c != 0) x = true := by
    intro x hx
    have hx2 : x ∈ List.takeWhile (fun c : Nat => c != 0) name := List.mem_of_mem_take hx
    exact @List.mem_takeWhile_imp Nat (fun c => c != 0) name x hx2
  unfold cstr at hall ⊢
  rw [List.takeWhile_append_of_pos hall, List.replicate_succ]
  simp

theorem length_msg_name (name : List Nat) (n : Nat) :
    (strncpy (memset_zero [] (n + 1)) name n).length = n + 1 := by
  rw [msg_name_eq]
  simp only [List.length_append, List.length_take, List.length_replicate]
  omega

/-- The slot of a queued envelope after a later buffer change and later
passes: the envelope posted by a pass with new data sits in the queue right
after what the queue held before, and later stores and passes only append
behind it, so the display task reads the slots the pass built. -/
theorem SensorCpp.queued_data_after_post {σ α : Type} (sz nsz : Nat)
    (context : SensorCpp.SensorContext σ α)
    (h : 0 < u8 (context.sensor.info.poll_sensor_func context.sensor.hw).1)
    (q : List (SensorCpp.DisplayMsg α)) (changed : Nat → α) (env : List (σ → σ)) (i : Nat) :
    SensorCpp.queued_data
        (SensorCpp.world_run sz nsz
          (SensorCpp.world_set_buffer
            (SensorCpp.world_pass sz nsz { context := context, queue := q }) changed)
          env) q.length i
      = (SensorCpp.build_msg sz nsz (SensorCpp.read_sensor sz context
          (context.sensor.info.poll_sensor_func context.sensor.hw).2)).data i := by
  unfold SensorCpp.queued_data SensorCpp.world_run SensorCpp.world_set_buffer
    SensorCpp.world_pass
  simp only [SensorCpp.posted_new_data sz nsz context h]
  rw [List.getElem?_append_left (by simp), List.getElem?_concat_length]
  rfl

/-- In `main.c` the queued message is a pointer into the scratch buffer:
after a pass with new data the display task reads 65 at offset 0 behind the
queued message, and once the buffer is overwritten with 7 it reads 7 behind
the same queued message. -/
theorem MainC.queued_data_follows_buffer :
    MainC.queued_data
        (MainC.world_pass 0 3 { taskData := demoTaskData none 500 1, queue := [] }) 0 0
      = some 65
    ∧ MainC.queued_data
        (MainC.world_set_buffer
          (MainC.world_pass 0 3 { taskData := demoTaskData none 500 1, queue := [] })
          (fun _ => 7)) 0 0
      = some 7 := by
  refine ⟨?_, ?_⟩ <;> decide

/-- Claim C3: in a pass of `sensor_task` with new data, one envelope is
posted, to the display task of the context; its signal is the sensor's id;
its name is the first `sensorNameSize` characters of the sensor's name
followed by NUL up to `sensorNameSize + 1` bytes; slot `i` of its data is the
value left at offset `i` of the context buffer by `receive_sensor_data_func`,
for every `i` below the returned count and below `sensorDataSize`; no slot at
`sensorDataSize` or above is written; and whatever the queue held before,
whatever the scratch buffer is changed to after the post and however many
further passes (each overwriting the buffer through its read) follow, the
display task still finds in slot `i` of this envelope the value the read of
this pass produced. -/
theorem C3_envelope_contents {σ α : Type} (sz nsz : Nat)
    (context : SensorCpp.SensorContext σ α)
    (h : 0 < u8 (context.sensor.info.poll_sensor_func context.sensor.hw).1) :
    ∃ m, posted (SensorCpp.sensor_task_cycle sz nsz context).2 = [m]
      ∧ Call.msg_post context.display_task_id m ∈ (SensorCpp.sensor_task_cycle sz nsz context).2
      ∧ m.signal = context.sensor.info.id
      ∧ m.name = (cstr context.sensor.info.name).take nsz
          ++ List.replicate (nsz - (cstr context.sensor.info.name).length + 1) 0
      ∧ cstr m.name = (cstr context.sensor.info.name).take nsz
      ∧ m.name.length = nsz + 1
      ∧ (∀ i, i < min (u8 (context.sensor.info.receive_sensor_data_func
              (context.sensor.info.poll_sensor_func context.sensor.hw).2
              context.data (u8 sz)).1) sz →
          m.data i = some ((context.sensor.info.receive_sensor_data_func
              (context.sensor.info.poll_sensor_func context.sensor.hw).2
              context.data (u8 sz)).2.1 i))
      ∧ (∀ i, sz ≤ i → m.data i = none)
      ∧ (∀ (q : List (SensorCpp.DisplayMsg α)) (changed : Nat → α) (env : List (σ → σ))
          (i : Nat),
          i < min (u8 (context.sensor.info.receive_sensor_data_func
              (context.sensor.info.poll_sensor_func context.sensor.hw).2
              context.data (u8 sz)).1) sz →
          SensorCpp.queued_data
              (SensorCpp.world_run sz nsz
                (SensorCpp.world_set_buffer
                  (SensorCpp.world_pass sz nsz { context := context, queue := q }) changed)
                env) q.length i
            = some ((context.sensor.info.receive_sensor_data_func
                (context.sensor.info.poll_sensor_func context.sensor.hw).2
                context.data (u8 sz)).2.1 i)) := by
  refine ⟨_, SensorCpp.posted_new_data sz nsz context h, ?_, rfl, msg_name_eq _ _,
    cstr_msg_name _ _, length_msg_name _ _, ?_, ?_, ?_⟩
  · rw [SensorCpp.cycle_new_data sz nsz context h]
    simp
  · intro i hi
    rw [SensorCpp.build_msg_data]
    have h1 : i < (SensorCpp.read_sensor sz context
        (context.sensor.info.poll_sensor_func context.sensor.hw).2).count ∧ i < sz :=
      ⟨lt_of_lt_of_le hi (Nat.min_le_left _ _), lt_of_lt_of_le hi (Nat.min_le_right _ _)⟩
    rw [if_pos h1]
    rfl
  · intro i hi
    rw [SensorCpp.build_msg_data]
    have h1 : ¬ (i < (SensorCpp.read_sensor sz context
        (context.sensor.info.poll_sensor_func context.sensor.hw).2).count ∧ i < sz) := by
      omega
    rw [if_neg h1]
  · intro q changed env i hi
    rw [SensorCpp.queued_data_after_post sz nsz context h q changed env i,
      SensorCpp.build_msg_data]
    have h1 : i < (SensorCpp.read_sensor sz context
        (context.sensor.info.poll_sensor_func context.sensor.hw).2).count ∧ i < sz :=
      ⟨lt_of_lt_of_le hi (Nat.min_le_left _ _), lt_of_lt_of_le hi (Nat.min_le_right _ _)⟩
    rw [if_pos h1]
    rfl

/-- Witness of `C3_envelope_contents` on the example sensor, whose poll
reports new data: the envelope carries id 1, the name and the values read;
after the scratch buffer is overwritten with 99 the buffer holds 99 at
offset 0 and the queued envelope still holds 40 in slot 0. -/
theorem C3_envelope_contents_witness :
    0 < u8 ((demoContext 3 1).sensor.info.poll_sensor_func (demoContext 3 1).sensor.hw).1
    ∧ (SensorCpp.world_set_buffer
        (SensorCpp.world_pass 3 3 { context := demoContext 3 1, queue := [] })
        (fun _ => 99)).context.data 0 = 99
    ∧ ∃ m, posted (SensorCpp.sensor_task_cycle 3 3 (demoContext 3 1)).2 = [m]
      ∧ m.signal = 1 ∧ m.name = [116, 109, 112, 0]
      ∧ m.data 0 = some 40 ∧ m.data 2 = some 42 ∧ m.data 3 = none
      ∧ SensorCpp.queued_data
          (SensorCpp.world_run 3 3
            (SensorCpp.world_set_buffer
              (SensorCpp.world_pass 3 3 { context := demoContext 3 1, queue := [] })
              (fun _ => 99))
            []) 0 0 = some 40 :=
  ⟨by decide, by decide,
    (C3_envelope_contents 3 3 (demoContext 3 1) (by decide)).elim
      (fun m hm => ⟨m, hm.1, hm.2.2.1, hm.2.2.2.1,
        hm.2.2.2.2.2.2.1 0 (by decide), hm.2.2.2.2.2.2.1 2 (by decide),
        hm.2.2.2.2.2.2.2.1 3 (by decide),
        hm.2.2.2.2.2.2.2.2 [] (fun _ => 99) [] 0 (by decide)⟩)⟩

/-! ## Mutual exclusion on the bus (C2) -/

theorem count_set_of_getElem? (l : List Pc) (i : Nat) (a b c : Pc) (h : l[i]? = some a) :
    (l.set i c).count b
      = l.count b - (if (a == b) = true then 1 else 0) + (if (c == b) = true then 1 else 0) := by
  obtain ⟨hi, ha⟩ := List.getElem?_eq_some.mp h
  rw [List.count_set c b l i hi, ha]

theorem count_pos_of_getElem? (l : List Pc) (i : Nat) (a : Pc) (h : l[i]? = some a) :
    0 < l.count a := by
  obtain ⟨hi, ha⟩ := List.getElem?_eq_some.mp h
  exact List.count_pos_iff.mpr (ha ▸ List.getElem_mem hi)

theorem busInv_start (n : Nat) : BusInv (system_start n) := by
  unfold BusInv holders system_start system_setup sem_counting_create
  simp [List.count_replicate]

theorem busInv_step (s : Sys) (i : Nat) (h : BusInv s) : BusInv (task_step s i) := by
  obtain ⟨h1, h2⟩ := h
  unfold holders at h1
  unfold task_step
  cases hp : s.pcs[i]? with
  | none => exact ⟨h1, h2⟩
  | some pc =>
    have hpos := count_pos_of_getElem? s.pcs i pc hp
    cases pc with
    | at_sem_wait =>
      simp only
      unfold sem_wait
      by_cases hv : 0 < s.sem.value
      · rw [if_pos hv]
        simp only
        unfold BusInv holders
        simp only
        rw [count_set_of_getElem? s.pcs i Pc.at_sem_wait Pc.in_bus_section Pc.in_bus_section hp]
        refine ⟨?_, h2⟩
        have e1 : (Pc.at_sem_wait == Pc.in_bus_section) = false := rfl
        have e2 : (Pc.in_bus_section == Pc.in_bus_section) = true := rfl
        simp only [e1, e2, if_true, if_false, Bool.false_eq_true]
        omega
      · rw [if_neg hv]
        exact ⟨h1, h2⟩
    | in_bus_section =>
      simp only
      unfold sem_signal
      have hv : s.sem.value < s.sem.maxCount := by omega
      rw [if_pos hv]
      unfold BusInv holders
      simp only
      rw [count_set_of_getElem? s.pcs i Pc.in_bus_section Pc.in_bus_section Pc.at_task_wait hp]
      refine ⟨?_, h2⟩
      have e1 : (Pc.at_task_wait == Pc.in_bus_section) = false := rfl
      have e2 : (Pc.in_bus_section == Pc.in_bus_section) = true := rfl
      simp only [e1, e2, if_true, if_false, Bool.false_eq_true]
      omega
    | at_task_wait =>
      simp only
      unfold BusInv holders
      simp only
      rw [count_set_of_getElem? s.pcs i Pc.at_task_wait Pc.in_bus_section Pc.at_sem_wait hp]
      refine ⟨?_, h2⟩
      have e1 : (Pc.at_task_wait == Pc.in_bus_section) = false := rfl
      have e2 : (Pc.at_sem_wait == Pc.in_bus_section) = false := rfl
      simp only [e1, e2, if_false, Bool.false_eq_true]
      omega

theorem busInv_run (schedule : List Nat) :
    ∀ s : Sys, BusInv s → BusInv (run_schedule s schedule) := by
  induction schedule with
  | nil => intro s h; exact h
  | cons i rest ih =>
    intro s h
    exact ih (task_step s i) (busInv_step s i h)

/-- A value that occurs at most once in a list occurs at one index only. -/
theorem index_unique_of_count_le_one (a : Pc) :
    ∀ (l : List Pc) (i j : Nat), l.count a ≤ 1 → l[i]? = some a → l[j]? = some a → i = j := by
  intro l
  induction l with
  | nil => intro i j _ hi _; simp at hi
  | cons x xs ih =>
    intro i j hc hi hj
    cases i with
    | zero =>
      cases j with
      | zero => rfl
      | succ j =>
        exfalso
        simp only [List.getElem?_cons_zero, Option.some.injEq] at hi
        simp only [List.getElem?_cons_succ] at hj
        have hpos := count_pos_of_getElem? xs j a hj
        rw [hi, List.count_cons_self] at hc
        omega
    | succ i =>
      cases j with
      | zero =>
        exfalso
        simp only [List.getElem?_cons_zero, Option.some.injEq] at hj
        simp only [List.getElem?_cons_succ] at hi
        have hpos := count_pos_of_getElem? xs i a hi
        rw [hj, List.count_cons_self] at hc
        omega
      | succ j =>
        simp only [List.getElem?_cons_succ] at hi hj
        have hle : xs.count a ≤ 1 := le_trans (List.count_le_count_cons a x xs) hc
        rw [ih i j hle hi hj]

/-- Claim C2: from the start state (semaphore created with maximum 10 and
initial value 1, every sensor task before its `sem_wait`), after any schedule
of task steps, at most one task is between its `sem_wait` and its
`sem_signal` (as a count, and as: two tasks found there are the same task),
and the semaphore value is 0 or 1, being 0 exactly when a task is there. -/
theorem C2_bus_mutual_exclusion (n : Nat) (schedule : List Nat) :
    holders (run_schedule (system_start n) schedule) ≤ 1
    ∧ (∀ i j : Nat,
        (run_schedule (system_start n) schedule).pcs[i]? = some Pc.in_bus_section →
        (run_schedule (system_start n) schedule).pcs[j]? = some Pc.in_bus_section → i = j)
    ∧ ((run_schedule (system_start n) schedule).sem.value = 0
        ∨ (run_schedule (system_start n) schedule).sem.value = 1)
    ∧ (run_schedule (system_start n) schedule).sem.value
        + holders (run_schedule (system_start n) schedule) = 1 := by
  have h := busInv_run schedule (system_start n) (busInv_start n)
  have h1 := h.1
  have hle : holders (run_schedule (system_start n) schedule) ≤ 1 := by omega
  refine ⟨hle, ?_, by omega, h1⟩
  intro i j hi hj
  exact index_unique_of_count_le_one Pc.in_bus_section _ i j hle hi hj

/-- Witness of `C2_bus_mutual_exclusion` on the two sensor tasks of `main`:
after the first task has taken the semaphore and the second has tried to, the
first is inside the bus section, the second still at its `sem_wait`, and the
semaphore value is 0. -/
theorem C2_bus_mutual_exclusion_witness :
    (run_schedule (system_start 2) [0, 1]).pcs = [Pc.in_bus_section, Pc.at_sem_wait]
    ∧ (run_schedule (system_start 2) [0, 1]).sem.value = 0
    ∧ (run_schedule (system_start 2) [0, 1, 0, 1]).pcs = [Pc.at_task_wait, Pc.in_bus_section]
    ∧ holders (run_schedule (system_start 2) [0, 1]) ≤ 1 :=
  ⟨by decide, by decide, by decide, (C2_bus_mutual_exclusion 2 [0, 1]).1⟩

end SendAltitude
